import Mathlib

/-!
Verification development for the MediGuide deterministic core:
the rule-based medication extractor (`lib/extractor-improved.ts`), the
confidence gate (`lib/config/confidence-thresholds.ts`,
`lib/ocr/confidence-gate.ts`), the drug-interaction checker
(`lib/interactions/interaction-checker.ts`), the nudge generator
(`lib/nudges/nudge-generator.ts`) and the explainability composer
(`lib/explainability/explainability-generator.ts`).

JavaScript strings are modelled as Lean `String`s processed as `List Char`
(all helpers are structural recursions so concrete instances reduce by
`decide`).  JavaScript numbers are modelled as exact rationals `ℚ`; every
numeric constant in the modelled code is an exact decimal, and all the code
does with numbers is add such constants and compare against such constants,
so no float-rounding behaviour is observable at the granularity of the
properties proved here.  The regular-expression matches of the source are
modelled by hand-written matchers that implement the exact semantics of the
corresponding JavaScript regex (leftmost match, ordered alternation,
greedy/lazy quantifiers as found in each pattern, `\b` word boundaries,
case-insensitive flags).
-/

namespace Mediguide

/-! ## Character classes and basic list-of-char utilities -/

/-- JS regex `\w` (ASCII word character). -/
def isWordChar (c : Char) : Bool := c.isAlphanum || c == '_'

/-- JS regex `\s` (whitespace), restricted to the ASCII whitespace that can
occur in the modelled inputs. -/
def isSpaceChar (c : Char) : Bool := c.isWhitespace

/-- Case-insensitive character comparison (JS `i` flag / `toLowerCase`). -/
def charCI (a b : Char) : Bool := a.toLower == b.toLower

/-- `String.prototype.toLowerCase` (ASCII). -/
def jsLower (s : String) : String := ⟨s.data.map Char.toLower⟩

/-- `String.prototype.toUpperCase` (ASCII). -/
def jsUpper (s : String) : String := ⟨s.data.map Char.toUpper⟩

/-- Drop leading and trailing whitespace (JS `String.prototype.trim`). -/
def trimChars (cs : List Char) : List Char :=
  ((cs.dropWhile isSpaceChar).reverse.dropWhile isSpaceChar).reverse

/-- `String.prototype.trim`. -/
def jsTrim (s : String) : String := ⟨trimChars s.data⟩

/-- Does `sub` occur as a contiguous substring of `hay`?
(JS `String.prototype.includes`, case-sensitive.) -/
def containsSub (hay sub : List Char) : Bool :=
  match hay with
  | [] => sub.isEmpty
  | _ :: t => sub.isPrefixOf hay || containsSub t sub

/-- JS `hay.includes(sub)`. -/
def jsIncludes (hay sub : String) : Bool := containsSub hay.data sub.data

/-- Numeric value of a list of decimal digits (JS `parseInt` on a digit
string). -/
def natOfDigits (ds : List Char) : Nat :=
  ds.foldl (fun n c => 10 * n + (c.toNat - '0'.toNat)) 0

/-- Split on `'\n'` (JS `text.split('\n')`); keeps empty pieces exactly as
JS does. -/
def splitNewlines (cs : List Char) : List (List Char) :=
  match cs with
  | [] => [[]]
  | c :: t =>
    let rest := splitNewlines t
    if c == '\n' then [] :: rest
    else match rest with
      | [] => [[c]]
      | r :: rs => (c :: r) :: rs

/-- Auxiliary for `splitWs`: accumulates the current token (reversed). -/
def splitWsAux : List Char → List Char → List (List Char)
  | cur, [] => if cur.isEmpty then [] else [cur.reverse]
  | cur, c :: cs =>
    if isSpaceChar c then
      if cur.isEmpty then splitWsAux [] cs else cur.reverse :: splitWsAux [] cs
    else splitWsAux (c :: cur) cs

/-- JS `s.trim().split(/\s+/)` for nonempty trimmed strings: the list of
maximal whitespace-free runs. -/
def splitWs (cs : List Char) : List String :=
  (splitWsAux [] (trimChars cs)).map (fun t => (⟨t⟩ : String))

/-! ## Generic regex-scanning helpers

A "matcher at a position" takes the character preceding the position
(`none` at the start of the string, used for `\b`) and the remaining
characters, and returns the match data or `none`.  `scanOpt` tries every
position left to right — exactly a JS regex search. -/

/-- Try `tryAt` at every position, leftmost first (JS `String.match`). -/
def scanOpt {α : Type} (tryAt : Option Char → List Char → Option α) :
    Option Char → List Char → Option α
  | prev, [] => tryAt prev []
  | prev, c :: cs =>
    match tryAt prev (c :: cs) with
    | some r => some r
    | none => scanOpt tryAt (some c) cs

/-- `\b` immediately before a word character: the previous character must be
absent or a non-word character. -/
def atWordStart (prev : Option Char) : Bool :=
  match prev with
  | none => true
  | some c => !isWordChar c

/-- `\b` immediately after a word character: the next character must be
absent or a non-word character. -/
def wordEndsAt (rest : List Char) : Bool :=
  match rest with
  | [] => true
  | c :: _ => !isWordChar c

/-- Match the literal `kw` case-insensitively as a prefix; returns the
consumed original characters and the rest. -/
def stripCI (kw : List Char) (cs : List Char) : Option (List Char × List Char) :=
  match kw, cs with
  | [], rest => some ([], rest)
  | _ :: _, [] => none
  | k :: ks, c :: cs' =>
    if charCI c k then
      match stripCI ks cs' with
      | some (con, rest) => some (c :: con, rest)
      | none => none
    else none

/-- Ordered alternation of case-insensitive literals (JS `(a|b|c)` of plain
words): the first alternative that matches wins. -/
def firstAltCI (alts : List String) (cs : List Char) : Option (List Char × List Char) :=
  match alts with
  | [] => none
  | a :: rest =>
    match stripCI a.data cs with
    | some r => some r
    | none => firstAltCI rest cs

/-- Split a maximal run satisfying `p` from the front: `(run, rest)`. -/
def splitRun (p : Char → Bool) (cs : List Char) : List Char × List Char :=
  (cs.takeWhile p, cs.dropWhile p)

/-! ## The extractor's regular expressions (`lib/extractor-improved.ts`)

Each JS regex of `extractMedicationFromLine` is modelled by a dedicated
matcher.  None of the alternation lists below contains an alternative that
is a prefix of another, so at a given position at most one alternative can
match and ordered alternation reduces to "the one that matches". -/

/-- The form keywords of `formDrugMatch`
(`/\b(tab|cap|syr|syp|inj|inh|oint|cr|gel|drops|susp)\s+([a-z][\w\-]+)/i`). -/
def FORM_KEYWORDS : List String :=
  ["tab", "cap", "syr", "syp", "inj", "inh", "oint", "cr", "gel", "drops", "susp"]

/-- `formDrugMatch` at one position: form keyword at a word boundary, one or
more whitespace characters, then a letter followed by one or more
word-or-hyphen characters.  Returns `(match[0], form, drugName)` with the
original casing. -/
def tryFormDrugAt (prev : Option Char) (cs : List Char) :
    Option (String × String × String) :=
  if atWordStart prev then
    match firstAltCI FORM_KEYWORDS cs with
    | none => none
    | some (formCs, rest) =>
      let (ws, rest2) := splitRun isSpaceChar rest
      if ws.isEmpty then none
      else
        match rest2 with
        | [] => none
        | d :: ds =>
          if d.isAlpha then
            let tail := ds.takeWhile (fun c => isWordChar c || c == '-')
            if tail.isEmpty then none
            else some (⟨formCs ++ ws ++ d :: tail⟩, ⟨formCs⟩, ⟨d :: tail⟩)
          else none
  else none

/-- Pattern 1 for the drug name:
`line.match(/\b(tab|cap|syr|syp|inj|inh|oint|cr|gel|drops|susp)\s+([a-z][\w\-]+)/i)`. -/
def formDrugMatch (cs : List Char) : Option (String × String × String) :=
  scanOpt tryFormDrugAt none cs

/-- The strength units of `strengthMatch`, in the source's alternation
order (`mg|mcg|g|ml|iu|units?`); `units?` is handled by listing `units`
before `unit` (greedy optional `s?`). -/
def STRENGTH_UNITS : List String := ["mg", "mcg", "g", "ml", "iu", "units", "unit"]

/-- `strengthMatch` at one position
(`/(\d+(?:\.\d+)?(?:\/\d+)?)\s*(mg|mcg|g|ml|iu|units?)/i`): digits, an
optional `.digits`, an optional `/digits`, optional whitespace, then a
unit.  Returns `(match[0], match[1], match[2])`. -/
def tryStrengthAt (_prev : Option Char) (cs : List Char) :
    Option (String × String × String) :=
  let (ds, rest) := splitRun Char.isDigit cs
  if ds.isEmpty then none
  else
    let (frac, rest2) :=
      match rest with
      | '.' :: r =>
        let (fs, r2) := splitRun Char.isDigit r
        if fs.isEmpty then (([] : List Char), rest) else ('.' :: fs, r2)
      | _ => ([], rest)
    let (denom, rest3) :=
      match rest2 with
      | '/' :: r =>
        let (ss, r2) := splitRun Char.isDigit r
        if ss.isEmpty then (([] : List Char), rest2) else ('/' :: ss, r2)
      | _ => ([], rest2)
    let (ws, rest4) := splitRun isSpaceChar rest3
    match firstAltCI STRENGTH_UNITS rest4 with
    | none => none
    | some (unitCs, _) =>
      some (⟨ds ++ frac ++ denom ++ ws ++ unitCs⟩, ⟨ds ++ frac ++ denom⟩, ⟨unitCs⟩)

/-- `line.match(/(\d+(?:\.\d+)?(?:\/\d+)?)\s*(mg|mcg|g|ml|iu|units?)/i)`. -/
def strengthMatch (cs : List Char) : Option (String × String × String) :=
  scanOpt tryStrengthAt none cs

/-- `dosePatternMatch` at one position (`/(\d)-(\d)-(\d)/`): returns
`(match[0], morning, afternoon, evening)` digit values. -/
def tryDosePatternAt (_prev : Option Char) (cs : List Char) :
    Option (String × Nat × Nat × Nat) :=
  match cs with
  | a :: '-' :: b :: '-' :: c :: _ =>
    if a.isDigit && b.isDigit && c.isDigit then
      some (⟨[a, '-', b, '-', c]⟩, natOfDigits [a], natOfDigits [b], natOfDigits [c])
    else none
  | _ => none

/-- `line.match(/(\d)-(\d)-(\d)/)`. -/
def dosePatternMatch (cs : List Char) : Option (String × Nat × Nat × Nat) :=
  scanOpt tryDosePatternAt none cs

/-- The frequency abbreviations of `freqMatch`
(`/\b(od|bd|tds|qds|qid|prn|hs|sos|q4h|q6h|q8h|q12h|stat)\b/i`). -/
def FREQ_ABBREVIATIONS : List String :=
  ["od", "bd", "tds", "qds", "qid", "prn", "hs", "sos", "q4h", "q6h", "q8h", "q12h", "stat"]

/-- `freqMatch` at one position: an abbreviation delimited by word
boundaries on both sides.  Returns `match[1]` with original casing. -/
def tryFreqAt (prev : Option Char) (cs : List Char) : Option String :=
  if atWordStart prev then
    match firstAltCI FREQ_ABBREVIATIONS cs with
    | some (kw, rest) => if wordEndsAt rest then some ⟨kw⟩ else none
    | none => none
  else none

/-- `line.match(/\b(od|bd|tds|qds|qid|prn|hs|sos|q4h|q6h|q8h|q12h|stat)\b/i)`. -/
def freqMatch (cs : List Char) : Option String :=
  scanOpt tryFreqAt none cs

/-- Continuation of `timesMatch` after `times?`: `\s*(daily|per day|a day)`. -/
def timesTailAt (rest : List Char) : Bool :=
  let (_, rest2) := splitRun isSpaceChar rest
  (firstAltCI ["daily", "per day", "a day"] rest2).isSome

/-- `timesMatch` at one position (`/(\d+)\s*times?\s*(daily|per day|a day)/i`):
returns `parseInt(match[1])`. -/
def tryTimesAt (_prev : Option Char) (cs : List Char) : Option Nat :=
  let (ds, rest) := splitRun Char.isDigit cs
  if ds.isEmpty then none
  else
    let (_, rest2) := splitRun isSpaceChar rest
    match stripCI "time".data rest2 with
    | none => none
    | some (_, rest3) =>
      let ok :=
        match rest3 with
        | c :: r => if charCI c 's' then (if timesTailAt r then true else timesTailAt rest3) else timesTailAt rest3
        | [] => timesTailAt rest3
      if ok then some (natOfDigits ds) else none

/-- `line.match(/(\d+)\s*times?\s*(daily|per day|a day)/i)`. -/
def timesMatch (cs : List Char) : Option Nat :=
  scanOpt tryTimesAt none cs

/-- Duration tail `(\d+)\s*(d|day|days|w|week|weeks|m|month|months)`: since
the single letters `d`, `w`, `m` come first in the source's ordered
alternation, `match[2]` is always exactly one of those letters.  Returns
`(consumed characters, digits, unit letter)`. -/
def durationTail (cs : List Char) : Option (List Char × String × Char) :=
  let (ds, rest) := splitRun Char.isDigit cs
  if ds.isEmpty then none
  else
    let (ws, rest2) := splitRun isSpaceChar rest
    match rest2 with
    | u :: _ =>
      if charCI u 'd' || charCI u 'w' || charCI u 'm' then
        some (ds ++ ws ++ [u], ⟨ds⟩, u)
      else none
    | [] => none

/-- `durationMatch1` at one position
(`/x\s*(\d+)\s*(d|day|days|w|week|weeks|m|month|months)/i`). -/
def tryDuration1At (_prev : Option Char) (cs : List Char) :
    Option (String × String × Char) :=
  match cs with
  | x :: rest =>
    if charCI x 'x' then
      let (ws, rest2) := splitRun isSpaceChar rest
      match durationTail rest2 with
      | some (con, num, u) => some (⟨x :: ws ++ con⟩, num, u)
      | none => none
    else none
  | [] => none

/-- `line.match(/x\s*(\d+)\s*(d|day|days|w|week|weeks|m|month|months)/i)`. -/
def durationMatch1 (cs : List Char) : Option (String × String × Char) :=
  scanOpt tryDuration1At none cs

/-- `durationMatch2` at one position
(`/for\s+(\d+)\s*(d|day|days|w|week|weeks|m|month|months)/i`). -/
def tryDuration2At (_prev : Option Char) (cs : List Char) :
    Option (String × Char) :=
  match stripCI "for".data cs with
  | none => none
  | some (_, rest) =>
    let (ws, rest2) := splitRun isSpaceChar rest
    if ws.isEmpty then none
    else
      match durationTail rest2 with
      | some (_, num, u) => some (num, u)
      | none => none

/-- `line.match(/for\s+(\d+)\s*(d|day|days|w|week|weeks|m|month|months)/i)`. -/
def durationMatch2 (cs : List Char) : Option (String × Char) :=
  scanOpt tryDuration2At none cs

/-- The food-instruction phrases of `foodMatch`
(`/\b(ac|pc|with meals|empty stomach|before meals|after meals|with food)\b/i`). -/
def FOOD_PHRASES : List String :=
  ["ac", "pc", "with meals", "empty stomach", "before meals", "after meals", "with food"]

/-- `foodMatch` at one position: a phrase delimited by word boundaries. -/
def tryFoodAt (prev : Option Char) (cs : List Char) : Option String :=
  if atWordStart prev then
    match firstAltCI FOOD_PHRASES cs with
    | some (kw, rest) => if wordEndsAt rest then some ⟨kw⟩ else none
    | none => none
  else none

/-- `line.match(/\b(ac|pc|with meals|empty stomach|before meals|after meals|with food)\b/i)`. -/
def foodMatch (cs : List Char) : Option String :=
  scanOpt tryFoodAt none cs

/-- The timing words of `timingMatch`
(`/\b(morning|evening|bedtime|night|afternoon)\b/i`). -/
def TIMING_WORDS : List String := ["morning", "evening", "bedtime", "night", "afternoon"]

/-- `timingMatch` at one position: a timing word delimited by word
boundaries. -/
def tryTimingAt (prev : Option Char) (cs : List Char) : Option String :=
  if atWordStart prev then
    match firstAltCI TIMING_WORDS cs with
    | some (kw, rest) => if wordEndsAt rest then some ⟨kw⟩ else none
    | none => none
  else none

/-- `line.match(/\b(morning|evening|bedtime|night|afternoon)\b/i)`. -/
def timingMatch (cs : List Char) : Option String :=
  scanOpt tryTimingAt none cs

/-- `prnMatch` at one position (`/(prn|sos|as needed|if needed).*?(\(.*?\))?/i`):
the lazy `.*?` matches the empty string, after which the optional group
matches a parenthesised span only when `(` directly follows the keyword and
a `)` occurs later; otherwise the whole match is just the keyword. -/
def tryPrnAt (_prev : Option Char) (cs : List Char) : Option String :=
  match firstAltCI ["prn", "sos", "as needed", "if needed"] cs with
  | none => none
  | some (kw, rest) =>
    match rest with
    | '(' :: r =>
      let inner := r.takeWhile (fun c => c != ')')
      if (r.dropWhile (fun c => c != ')')).isEmpty then some ⟨kw⟩
      else some ⟨kw ++ '(' :: inner ++ [')']⟩
    | _ => some ⟨kw⟩

/-- `line.match(/(prn|sos|as needed|if needed).*?(\(.*?\))?/i)`, returning
`match[0]`. -/
def prnMatch (cs : List Char) : Option String :=
  scanOpt tryPrnAt none cs

/-- Find the earliest occurrence, at or after the current position, of one
of `dose|mg|ml|times`; returns the characters up to and including it. -/
def maxDoseGap : List Char → Option (List Char)
  | [] => none
  | c :: t =>
    match firstAltCI ["dose", "mg", "ml", "times"] (c :: t) with
    | some (kw, _) => some kw
    | none =>
      match maxDoseGap t with
      | some span => some (c :: span)
      | none => none

/-- `maxDoseMatch` at one position (`/max\s+\d+.*?(dose|mg|ml|times)/i`). -/
def tryMaxDoseAt (_prev : Option Char) (cs : List Char) : Option String :=
  match stripCI "max".data cs with
  | none => none
  | some (con, rest) =>
    let (ws, rest2) := splitRun isSpaceChar rest
    if ws.isEmpty then none
    else
      let (ds, rest3) := splitRun Char.isDigit rest2
      if ds.isEmpty then none
      else
        match maxDoseGap rest3 with
        | some span => some ⟨con ++ ws ++ ds ++ span⟩
        | none => none

/-- `line.match(/max\s+\d+.*?(dose|mg|ml|times)/i)`, returning `match[0]`. -/
def maxDoseMatch (cs : List Char) : Option String :=
  scanOpt tryMaxDoseAt none cs

/-! ## Line screening (`isNonMedicationLine`, `hasMedicationIndicators`) -/

/-- `NON_MEDICATION_KEYWORDS` from `lib/extractor-improved.ts`. -/
def NON_MEDICATION_KEYWORDS : List String :=
  ["name", "age", "date", "weight", "address", "phone", "doctor", "clinic", "hospital",
   "patient", "gender", "diagnosis", "advice", "follow", "review", "signature",
   "registration", "reg", "mbbs", "md", "clinical", "description", "urti", "fever"]

/-- `/^\d+[-\/]\d+[-\/]\d+/.test(lowerLine)`: digits, `-` or `/`, digits,
`-` or `/`, digits, as a prefix. -/
def datePrefixTest (cs : List Char) : Bool :=
  let (d1, r1) := splitRun Char.isDigit cs
  if d1.isEmpty then false
  else
    match r1 with
    | s1 :: r2 =>
      if s1 == '-' || s1 == '/' then
        let (d2, r3) := splitRun Char.isDigit r2
        if d2.isEmpty then false
        else
          match r3 with
          | s2 :: r4 =>
            if s2 == '-' || s2 == '/' then !(r4.takeWhile Char.isDigit).isEmpty
            else false
          | [] => false
      else false
    | [] => false

/-- `/^[\d\s:]+$/.test(lowerLine)`. -/
def numbersOnlyTest (cs : List Char) : Bool :=
  !cs.isEmpty && cs.all (fun c => c.isDigit || isSpaceChar c || c == ':')

/-- `isNonMedicationLine` from `lib/extractor-improved.ts`. -/
def isNonMedicationLine (line : String) : Bool :=
  let lowerLine := jsTrim (jsLower line)
  if lowerLine.length < 3 then true
  else if NON_MEDICATION_KEYWORDS.any (fun kw =>
      kw.data.isPrefixOf lowerLine.data ||
      (lowerLine.data.contains ':' &&
        trimChars (lowerLine.data.takeWhile (fun c => c != ':')) == kw.data)) then true
  else if datePrefixTest lowerLine.data then true
  else if numbersOnlyTest lowerLine.data then true
  else false

/-- `/\d+\s*(mg|mcg|ml|g|iu|units?)/i.test(line)` (existence only, so the
alternation order is irrelevant). -/
def hasStrengthAt (_prev : Option Char) (cs : List Char) : Option Unit :=
  let (ds, rest) := splitRun Char.isDigit cs
  if ds.isEmpty then none
  else
    let (_, rest2) := splitRun isSpaceChar rest
    if (firstAltCI ["mg", "mcg", "ml", "g", "iu", "unit"] rest2).isSome then some () else none

/-- The plain alternatives of the `hasFrequency` test
(`/\b(od|bd|tds|qds|qid|prn|sos|hs|q\d+h|stat|times?\s+(daily|a\s+day|per\s+day))/i`);
note: no trailing `\b` in this pattern. -/
def HAS_FREQ_PLAIN : List String := ["od", "bd", "tds", "qds", "qid", "prn", "sos", "hs", "stat"]

/-- `q\d+h` at one position. -/
def qNhAt (cs : List Char) : Bool :=
  match cs with
  | q :: rest =>
    if charCI q 'q' then
      let (ds, rest2) := splitRun Char.isDigit rest
      if ds.isEmpty then false
      else match rest2 with
        | h :: _ => charCI h 'h'
        | [] => false
    else false
  | [] => false

/-- `times?\s+(daily|a\s+day|per\s+day)` at one position. -/
def timesPhraseAt (cs : List Char) : Bool :=
  match stripCI "time".data cs with
  | none => false
  | some (_, rest) =>
    let tail := fun (r : List Char) =>
      let (ws, r2) := splitRun isSpaceChar r
      if ws.isEmpty then false
      else if (stripCI "daily".data r2).isSome then true
      else
        match stripCI "a".data r2 with
        | some (_, r3) =>
          let (ws2, r4) := splitRun isSpaceChar r3
          if !ws2.isEmpty && (stripCI "day".data r4).isSome then true
          else
            match stripCI "per".data r2 with
            | some (_, r5) =>
              let (ws3, r6) := splitRun isSpaceChar r5
              !ws3.isEmpty && (stripCI "day".data r6).isSome
            | none => false
        | none =>
          match stripCI "per".data r2 with
          | some (_, r5) =>
            let (ws3, r6) := splitRun isSpaceChar r5
            !ws3.isEmpty && (stripCI "day".data r6).isSome
          | none => false
    match rest with
    | c :: r => if charCI c 's' then (tail r || tail rest) else tail rest
    | [] => tail rest

/-- The `hasFrequency` indicator at one position: word boundary before, then
one of the alternatives (no boundary required after). -/
def hasFrequencyAt (prev : Option Char) (cs : List Char) : Option Unit :=
  if atWordStart prev then
    if (firstAltCI HAS_FREQ_PLAIN cs).isSome || qNhAt cs || timesPhraseAt cs then some ()
    else none
  else none

/-- `/\b(tab|cap|syr|syp|inj|inh|oint|cr|gel|drops|susp|powder)\b/i.test(lowerLine)`. -/
def hasFormAt (prev : Option Char) (cs : List Char) : Option Unit :=
  if atWordStart prev then
    match firstAltCI (FORM_KEYWORDS ++ ["powder"]) cs with
    | some (_, rest) => if wordEndsAt rest then some () else none
    | none => none
  else none

/-- `/x\s*\d+\s*(d|day|days|w|week|weeks|m|month|months)/i.test(line)`. -/
def hasDurationAt (_prev : Option Char) (cs : List Char) : Option Unit :=
  match cs with
  | x :: rest =>
    if charCI x 'x' then
      let (_, rest2) := splitRun isSpaceChar rest
      (durationTail rest2).map (fun _ => ())
    else none
  | [] => none

/-- `hasMedicationIndicators` from `lib/extractor-improved.ts`: at least one
of strength, frequency, form or duration must be present. -/
def hasMedicationIndicators (line : String) : Bool :=
  let lowerLine := jsLower line
  let hasStrength := (scanOpt hasStrengthAt none line.data).isSome
  let hasFrequency := (scanOpt hasFrequencyAt none line.data).isSome
  let hasForm := (scanOpt hasFormAt none lowerLine.data).isSome
  let hasDuration := (scanOpt hasDurationAt none line.data).isSome
  let indicatorCount :=
    (if hasStrength then 1 else 0) + (if hasFrequency then 1 else 0) +
    (if hasForm then 1 else 0) + (if hasDuration then 1 else 0)
  indicatorCount ≥ 1

/-! ## Extractor data model (`lib/types.ts`) -/

/-- `timing_buckets` of `lib/types.ts`: optional non-negative counts per
time of day.  A JS field that is absent (`undefined`) is modelled as `0`:
every consumer of these buckets in the repository only ever tests them for
truthiness, and `undefined` and `0` are both falsy. -/
structure TimingBuckets where
  morning : Nat := 0
  afternoon : Nat := 0
  evening : Nat := 0
  night : Nat := 0
deriving DecidableEq, Repr

/-- `Medication` of `lib/types.ts`. -/
structure Medication where
  drug_name : String
  strength : String
  form : String
  dose_pattern : String
  timing_buckets : TimingBuckets
  duration : String
  food_instruction : Option String
  notes : Option String
  confidence : ℚ
deriving DecidableEq, Repr

/-- `ExtractionExplanation` of `lib/types.ts`. -/
structure ExtractionExplanation where
  matched_span : String
  rule_name : String
  normalized_meaning : String
  confidence : ℚ
deriving DecidableEq, Repr

/-- `ExtractionResult` of `lib/extractor-improved.ts`. -/
structure ExtractionResult where
  medications : List Medication
  explanations : List ExtractionExplanation
deriving DecidableEq, Repr

/-! ## Static abbreviation tables

`data/abbreviations.json` is consumed via
`abbreviations.frequency[...]`/`abbreviations.form[...]` but the JSON file
itself is not part of the given sources. -/

/-- Modelled from the spec: `data/abbreviations.json`'s `frequency` table
(the spec's fixed abbreviation set OD/BD/TDS/QDS/QID/PRN/HS/SOS/Q4H/Q6H/
Q8H/Q12H/STAT with their standard full meanings) is not under `src/`.
Returns the `full` text for a frequency code. -/
def abbreviationsFrequency (code : String) : Option String :=
  if code = "OD" then some "Once daily"
  else if code = "BD" then some "Twice daily"
  else if code = "TDS" then some "Three times daily"
  else if code = "QDS" then some "Four times daily"
  else if code = "QID" then some "Four times daily"
  else if code = "PRN" then some "As needed"
  else if code = "HS" then some "At bedtime"
  else if code = "SOS" then some "If needed"
  else if code = "Q4H" then some "Every 4 hours"
  else if code = "Q6H" then some "Every 6 hours"
  else if code = "Q8H" then some "Every 8 hours"
  else if code = "Q12H" then some "Every 12 hours"
  else if code = "STAT" then some "Immediately"
  else none

/-- Modelled from the spec: `data/abbreviations.json`'s `form` table
(form keyword to full form name) is not under `src/`. -/
def abbreviationsForm (form : String) : Option String :=
  if form = "Tab" then some "Tablet"
  else if form = "Cap" then some "Capsule"
  else if form = "Syr" then some "Syrup"
  else if form = "Syp" then some "Syrup"
  else if form = "Inj" then some "Injection"
  else if form = "Inh" then some "Inhaler"
  else if form = "Oint" then some "Ointment"
  else if form = "Gel" then some "Gel"
  else if form = "Drops" then some "Drops"
  else if form = "Susp" then some "Suspension"
  else none

/-! ## `extractMedicationFromLine` (`lib/extractor-improved.ts`, lines 90–302)

The source sets up one field after another (each from an independent match
on the line) and builds the `Medication` record once at the end; the
embedding mirrors that as one result per section, combined in
`finishExtraction`.  The per-section confidence increments are summed in
the same way the source's `confidence += ...` statements accumulate. -/

/-- `/^\d+$/.test(word)`. -/
def allDigitsTest (w : String) : Bool := !w.data.isEmpty && w.data.all Char.isDigit

/-- Pattern 2 for the drug name: the first whitespace-separated token of
`line.trim().split(/\s+/)` with `word.length >= 3`, not `/^\d+$/`, and
whose lowercasing is not in `NON_MEDICATION_KEYWORDS`. -/
def fallbackDrugToken (line : String) : Option String :=
  (splitWs line.data).find? (fun w =>
    decide (3 ≤ w.length) && !allDigitsTest w &&
      !(NON_MEDICATION_KEYWORDS.contains (jsLower w)))

/-- Strength section: `strength = 'Unknown'` unless `strengthMatch` fires,
in which case `strength = match[1] + match[2]` and `confidence += 0.2`. -/
def strengthResult (cs : List Char) : String × ℚ × List ExtractionExplanation :=
  match strengthMatch cs with
  | some (whole, num, unitStr) =>
    let strength := num ++ unitStr
    (strength, 2/10, [⟨whole, "strength_extraction", s!"Strength: {strength}", 9/10⟩])
  | none => ("Unknown", 0, [])

/-- The frequency-abbreviation-to-buckets mapping of the source's `if`
chain; any code without a listed mapping leaves the buckets at their
initialised value `{ morning: 1 }`. -/
def freqTimingBuckets (dp : String) : TimingBuckets :=
  if dp = "OD" then ⟨1, 0, 0, 0⟩
  else if dp = "BD" then ⟨1, 0, 1, 0⟩
  else if dp = "TDS" then ⟨1, 1, 1, 0⟩
  else if dp = "QDS" ∨ dp = "QID" then ⟨1, 1, 1, 1⟩
  else if dp = "HS" ∨ dp = "SOS" then ⟨0, 0, 0, 1⟩
  else if dp = "Q6H" then ⟨1, 1, 1, 1⟩
  else ⟨1, 0, 0, 0⟩

/-- Dose/frequency section: numeric `D-D-D` pattern first, else a frequency
abbreviation, else an "N times daily" phrase, else the defaults
`dose_pattern = 'OD'`, `timing_buckets = { morning: 1 }`. -/
def doseResult (cs : List Char) :
    String × TimingBuckets × ℚ × List ExtractionExplanation :=
  match dosePatternMatch cs with
  | some (whole, a, b, c) =>
    (whole, ⟨a, b, c, 0⟩, 2/10,
     [⟨whole, "dose_pattern_extraction", s!"Dose pattern: {a}-{b}-{c}", 95/100⟩])
  | none =>
    match freqMatch cs with
    | some kw =>
      let dp := jsUpper kw
      match abbreviationsFrequency dp with
      | some full =>
        (dp, freqTimingBuckets dp, 15/100,
         [⟨kw, "frequency_extraction", s!"Frequency: {full}", 9/10⟩])
      | none => (dp, ⟨1, 0, 0, 0⟩, 15/100, [])
    | none =>
      match timesMatch cs with
      | some n =>
        if n = 1 then ("OD", ⟨1, 0, 0, 0⟩, 15/100, [])
        else if n = 2 then ("BD", ⟨1, 0, 1, 0⟩, 15/100, [])
        else if n = 3 then ("TDS", ⟨1, 1, 1, 0⟩, 15/100, [])
        else if n = 4 then ("QDS", ⟨1, 1, 1, 1⟩, 15/100, [])
        else ("OD", ⟨1, 0, 0, 0⟩, 15/100, [])
      | none => ("OD", ⟨1, 0, 0, 0⟩, 0, [])

/-- `unit.startsWith('d') ? 'days' : unit.startsWith('w') ? 'weeks' :
'months'` (the captured unit is always a single letter, see
`durationTail`). -/
def fullUnitOf (u : Char) : String :=
  if charCI u 'd' then "days" else if charCI u 'w' then "weeks" else "months"

/-- Duration section: `x N unit` first, else `for N unit`, else
`'As directed'`. -/
def durationResult (cs : List Char) : String × ℚ × List ExtractionExplanation :=
  match durationMatch1 cs with
  | some (whole, num, u) =>
    let duration := num ++ " " ++ fullUnitOf u
    (duration, 1/10, [⟨whole, "duration_extraction", s!"Duration: {duration}", 85/100⟩])
  | none =>
    match durationMatch2 cs with
    | some (num, u) => (num ++ " " ++ fullUnitOf u, 1/10, [])
    | none => ("As directed", 0, [])

/-- Food-instruction section. -/
def foodResult (cs : List Char) : Option String × ℚ × List ExtractionExplanation :=
  match foodMatch cs with
  | some f =>
    (some f, 1/10, [⟨f, "food_instruction_extraction", s!"Food instruction: {f}", 85/100⟩])
  | none => (none, 0, [])

/-- Timing-hint section: a bare timing word overrides the buckets chosen by
the dose section (last-match-wins, a preserved source quirk). -/
def timingResult (cs : List Char) (tb : TimingBuckets) :
    TimingBuckets × List ExtractionExplanation :=
  match timingMatch cs with
  | some t =>
    let timing := jsLower t
    let tb2 :=
      if timing = "morning" then (⟨1, 0, 0, 0⟩ : TimingBuckets)
      else if timing = "evening" ∨ timing = "night" ∨ timing = "bedtime" then ⟨0, 0, 0, 1⟩
      else if timing = "afternoon" then ⟨0, 1, 0, 0⟩
      else tb
    (tb2, [⟨t, "timing_extraction", s!"Timing: {t}", 8/10⟩])
  | none => (tb, [])

/-- Notes section: the `prnMatch` text, the `maxDoseMatch` text, or both
joined with `' | '`. -/
def notesResult (cs : List Char) : Option String :=
  match prnMatch cs, maxDoseMatch cs with
  | some p, some m => some (p ++ " | " ++ m)
  | some p, none => some p
  | none, some m => some m
  | none, none => none

/-- `Math.min(Math.max(confidence, 0.3), 1.0)`. -/
def clampConfidence (c : ℚ) : ℚ := min (max c (3/10)) 1

/-- The common tail of `extractMedicationFromLine` once a drug name is
known: extract the remaining sections and build the `Medication` record.
`drugDelta` is the confidence increment of the drug-name pattern that fired
(`0.3` for form+drug, `0.2` for the fallback token). -/
def finishExtraction (cs : List Char) (drug_name form : String) (drugDelta : ℚ)
    (drugExpl : List ExtractionExplanation) :
    Option Medication × List ExtractionExplanation :=
  let sres := strengthResult cs
  let dres := doseResult cs
  let dures := durationResult cs
  let fres := foodResult cs
  let tres := timingResult cs dres.2.1
  let confidence :=
    clampConfidence (3/10 + drugDelta + sres.2.1 + dres.2.2.1 + dures.2.1 + fres.2.1)
  (some
    { drug_name := drug_name
      strength := sres.1
      form := (abbreviationsForm form).getD form
      dose_pattern := dres.1
      timing_buckets := tres.1
      duration := dures.1
      food_instruction := fres.1
      notes := notesResult cs
      confidence := confidence },
   drugExpl ++ sres.2.2 ++ dres.2.2.2 ++ dures.2.2 ++ fres.2.2 ++ tres.2)

/-- `extractMedicationFromLine` of `lib/extractor-improved.ts`: form+drug
pattern first, else the first acceptable token; if neither yields a drug
name the line produces no record. -/
def extractMedicationFromLine (line : String) :
    Option Medication × List ExtractionExplanation :=
  match formDrugMatch line.data with
  | some (whole, form, dn) =>
    finishExtraction line.data dn form (3/10)
      [⟨whole, "form_drug_extraction", s!"Medication: {dn} ({form})", 9/10⟩]
  | none =>
    match fallbackDrugToken line with
    | some w =>
      finishExtraction line.data w "Tablet" (2/10)
        [⟨w, "drug_name_extraction", s!"Medication: {w}", 7/10⟩]
    | none => (none, [])

/-- A line is processed only if it is not screened out as a non-medication
line and has at least one medication indicator. -/
def acceptsLine (line : String) : Bool :=
  !isNonMedicationLine line && hasMedicationIndicators line

/-- `text.split('\n').filter(line => line.trim().length > 0)`. -/
def textLines (text : String) : List String :=
  ((splitNewlines text.data).map (fun cs => (⟨cs⟩ : String))).filter
    (fun l => decide (0 < (jsTrim l).length))

/-- `extractMedications` of `lib/extractor-improved.ts`.  The source's
single loop (push the medication and its explanations whenever a line
passes both screens and yields a record) is expressed as one comprehension
per output list. -/
def extractMedications (text : String) : ExtractionResult :=
  let lines := textLines text
  { medications := lines.filterMap (fun l =>
      if acceptsLine l then (extractMedicationFromLine l).1 else none)
    explanations := lines.flatMap (fun l =>
      if acceptsLine l then
        match extractMedicationFromLine l with
        | (some _, expls) => expls
        | (none, _) => []
      else []) }

/-! ## Shared schema types (`lib/types/schemas.ts`)

Optional TS fields are `Option`s; string-literal union types that the
claims inspect (`severity`, nudge `category`) are inductive enumerations,
the rest stay `String`. -/

/-- A bounding box: four corner points (`PaddleOCRToken.bbox`). -/
abbrev BBox := List (ℚ × ℚ)

/-- The zero bounding box used as a fallback in the explainability
composer. -/
def zeroBBox : BBox := [(0, 0), (0, 0), (0, 0), (0, 0)]

/-- `PaddleOCRToken` of `lib/types/schemas.ts`. -/
structure PaddleOCRToken where
  text : String
  confidence : ℚ
  bbox : BBox
  angle : Option ℚ := none
deriving DecidableEq, Repr

/-- `OCRLine` of `lib/types/schemas.ts`. -/
structure OCRLine where
  text : String
  confidence : ℚ
  tokens : List PaddleOCRToken
deriving DecidableEq, Repr

/-- `OCRResult` of `lib/types/schemas.ts`. -/
structure OCRResult where
  text : String
  confidence : ℚ
  tokens : List PaddleOCRToken
  lines : List OCRLine
  language_detected : Option String := none
  processing_time_ms : ℚ := 0
deriving DecidableEq, Repr

/-- `FieldEvidence` of `lib/types/schemas.ts`. -/
structure FieldEvidence where
  value : String
  confidence : ℚ
  ocr_tokens : List PaddleOCRToken
  matched_rule : Option String := none
deriving DecidableEq, Repr

/-- `MedicationItem` of `lib/types/schemas.ts`. -/
structure MedicationItem where
  name : String
  name_confidence : ℚ
  name_evidence : FieldEvidence
  generic_name : Option String := none
  strength : String
  strength_confidence : ℚ
  strength_evidence : FieldEvidence
  form : String
  form_confidence : ℚ
  route : Option String := none
  frequency : String
  frequency_normalized : String
  frequency_confidence : ℚ
  frequency_evidence : FieldEvidence
  timing_buckets : TimingBuckets
  duration : String
  duration_confidence : ℚ
  duration_evidence : Option FieldEvidence := none
  food_instruction : Option String := none
  food_instruction_confidence : Option ℚ := none
  special_instructions : Option String := none
  notes : Option String := none
  needs_confirmation : Bool
  uncertain_fields : List String
deriving DecidableEq, Repr

/-- `ClarificationQuestion` of `lib/types/schemas.ts`. -/
structure ClarificationQuestion where
  field : String
  question : String
  detected_value : Option String := none
  confidence : ℚ
  suggestions : Option (List String) := none
deriving DecidableEq, Repr

/-- The `severity` union of `InteractionResult`. -/
inductive Severity
  | minor
  | moderate
  | severe
  | unknown
deriving DecidableEq, Repr

/-- `InteractionResult` of `lib/types/schemas.ts`. -/
structure InteractionResult where
  drug1 : String
  drug2 : String
  severity : Severity
  description : String
  symptoms : Option (List String) := none
  mechanism : Option String := none
  recommendation : String
  source : String
  source_url : Option String := none
deriving DecidableEq, Repr

/-- `DrugInfo` of `lib/types/schemas.ts` (`source` is one of `'openfda'`,
`'local'`, `'not_found'`). -/
structure DrugInfo where
  drug_name : String
  generic_name : Option String := none
  brand_names : Option (List String) := none
  indications : List String
  mechanism_of_action : Option String := none
  common_side_effects : List String
  serious_side_effects : Option (List String) := none
  precautions : List String
  contraindications : Option (List String) := none
  dosage_forms : List String
  typical_dosage_range : Option String := none
  max_daily_dose : Option String := none
  source : String
  source_url : Option String := none
  last_updated : String
  cached : Bool
deriving DecidableEq, Repr

/-- `meal_times` of `UserPreferences`. -/
structure MealTimes where
  breakfast : String
  lunch : String
  dinner : String
deriving DecidableEq, Repr

/-- `UserPreferences` of `lib/types/schemas.ts`. -/
structure UserPreferences where
  wake_time : String
  sleep_time : String
  meal_times : MealTimes
  preferred_nudge_style : String
  timezone : String
deriving DecidableEq, Repr

/-- The `category` union of `Nudge`. -/
inductive NudgeCategory
  | implementation_intention
  | friction_reduction
  | positive_reinforcement
  | why_it_matters
deriving DecidableEq, Repr

/-- `plan_value` of a nudge's evidence is heterogeneous in TS (`any`:
a bucket count or a string). -/
inductive PlanValue
  | num (n : Nat)
  | str (s : String)
deriving DecidableEq, Repr

/-- `evidence` of `Nudge`. -/
structure NudgeEvidence where
  medication : String
  plan_field : String
  plan_value : PlanValue
deriving DecidableEq, Repr

/-- `Nudge` of `lib/types/schemas.ts`.  The `created_at` field (a
wall-clock timestamp `new Date().toISOString()`) and the optional
`expires_at` carry no behavioural information and are not modelled. -/
structure Nudge where
  id : String
  category : NudgeCategory
  behavioral_principle : String
  message : String
  evidence : NudgeEvidence
  timing : String
  priority : Nat
deriving DecidableEq, Repr

/-- `AdherencePattern` of `lib/types/schemas.ts`. -/
structure AdherencePattern where
  pattern_type : String
  description : String
  frequency : ℚ
  suggestion : String
deriving DecidableEq, Repr

/-! ## Confidence thresholds (`lib/config/confidence-thresholds.ts`) -/

/-- `ConfidenceThresholds` of `lib/types/schemas.ts`. -/
structure ConfidenceThresholds where
  ocr_minimum : ℚ
  ocr_warning : ℚ
  ocr_good : ℚ
  drug_name : ℚ
  strength : ℚ
  frequency : ℚ
  duration : ℚ
  food_instruction : ℚ
  needs_confirmation_threshold : ℚ
  missing_field_threshold : ℚ
deriving DecidableEq, Repr

/-- `CONFIDENCE_THRESHOLDS` of `lib/config/confidence-thresholds.ts`. -/
def CONFIDENCE_THRESHOLDS : ConfidenceThresholds where
  ocr_minimum := 50/100
  ocr_warning := 65/100
  ocr_good := 80/100
  drug_name := 70/100
  strength := 75/100
  frequency := 65/100
  duration := 60/100
  food_instruction := 55/100
  needs_confirmation_threshold := 65/100
  missing_field_threshold := 30/100

/-- `ClarificationRules` of `lib/types/schemas.ts`. -/
structure ClarificationRules where
  drug_name_uncertain : Bool
  strength_uncertain : Bool
  frequency_missing : Bool
  duration_missing : Bool
deriving DecidableEq, Repr

/-- `CLARIFICATION_RULES` of `lib/config/confidence-thresholds.ts`. -/
def CLARIFICATION_RULES : ClarificationRules where
  drug_name_uncertain := true
  strength_uncertain := true
  frequency_missing := true
  duration_missing := false

/-- `getConfidenceLevel` of `lib/config/confidence-thresholds.ts`
(the `CONFIDENCE_LEVELS` minima are 0.80 / 0.65 / 0.50). -/
def getConfidenceLevel (confidence : ℚ) : String :=
  if 80/100 ≤ confidence then "high"
  else if 65/100 ≤ confidence then "medium"
  else if 50/100 ≤ confidence then "low"
  else "very_low"

/-- JS falsiness of an optional string (`!value`): absent or empty. -/
def strFalsy (v : Option String) : Bool :=
  match v with
  | none => true
  | some s => s.data.isEmpty

/-- `shouldRequestClarification` of `lib/config/confidence-thresholds.ts`. -/
def shouldRequestClarification (field : String) (confidence : ℚ)
    (value : Option String := none) : Bool :=
  let thresholds := CONFIDENCE_THRESHOLDS
  let rules := CLARIFICATION_RULES
  let isMissing := decide (confidence < thresholds.missing_field_threshold) || strFalsy value
  if field = "drug_name" then
    rules.drug_name_uncertain && (decide (confidence < thresholds.drug_name) || isMissing)
  else if field = "strength" then
    rules.strength_uncertain && (decide (confidence < thresholds.strength) || isMissing)
  else if field = "frequency" then
    rules.frequency_missing && isMissing
  else if field = "duration" then
    rules.duration_missing && isMissing
  else
    decide (confidence < thresholds.needs_confirmation_threshold)

/-! ## Confidence gate (`lib/ocr/confidence-gate.ts`) -/

/-- `ConfidenceGateResult` of `lib/ocr/confidence-gate.ts`. -/
structure ConfidenceGateResult where
  passed : Bool
  overall_confidence : ℚ
  needs_confirmation : Bool
  clarification_questions : List ClarificationQuestion
  low_confidence_fields : List String
  warnings : List String
deriving DecidableEq, Repr

/-- One entry of `ExtractedFields`. -/
structure FieldValueConfidence where
  value : String
  confidence : ℚ
deriving DecidableEq, Repr

/-- `ExtractedFields` of `lib/ocr/confidence-gate.ts`. -/
structure ExtractedFields where
  drug_name : Option FieldValueConfidence := none
  strength : Option FieldValueConfidence := none
  frequency : Option FieldValueConfidence := none
  duration : Option FieldValueConfidence := none
  food_instruction : Option FieldValueConfidence := none
deriving DecidableEq, Repr

/-- `Number.prototype.toFixed(1)` for the non-negative values formatted by
the gate's warning text (round half up to one decimal). -/
def jsToFixed1 (q : ℚ) : String :=
  let n : ℤ := ⌊q * 10 + 1/2⌋
  s!"{n / 10}.{n % 10}"

/-- Drug-name section of `evaluateConfidence`: contributed
`(low_confidence_fields, clarification_questions)`. -/
def drugNameFieldCheck (f : Option FieldValueConfidence) :
    List String × List ClarificationQuestion :=
  match f with
  | some fv =>
    if shouldRequestClarification "drug_name" fv.confidence (some fv.value) then
      (["drug_name"],
       [{ field := "drug_name"
          question :=
            if fv.value.data.isEmpty then
              "The medication name could not be detected clearly. Please enter the medication name."
            else s!"The medication name appears to be \"{fv.value}\". Is this correct?"
          detected_value := some fv.value
          confidence := fv.confidence
          suggestions := if fv.value.data.isEmpty then none else some [fv.value] }])
    else ([], [])
  | none =>
    (["drug_name"],
     [{ field := "drug_name"
        question := "The medication name could not be detected. Please enter the medication name."
        detected_value := none
        confidence := 0
        suggestions := none }])

/-- Strength section of `evaluateConfidence`. -/
def strengthFieldCheck (f : Option FieldValueConfidence) :
    List String × List ClarificationQuestion :=
  match f with
  | some fv =>
    if shouldRequestClarification "strength" fv.confidence (some fv.value) then
      (["strength"],
       [{ field := "strength"
          question :=
            if fv.value.data.isEmpty then
              "The medication strength could not be detected clearly. Please enter the strength (e.g., 500mg)."
            else s!"The strength appears to be \"{fv.value}\". Is this correct?"
          detected_value := some fv.value
          confidence := fv.confidence
          suggestions := if fv.value.data.isEmpty then none else some [fv.value] }])
    else ([], [])
  | none =>
    (["strength"],
     [{ field := "strength"
        question := "The medication strength could not be detected. Please enter the strength (e.g., 500mg)."
        detected_value := none
        confidence := 0
        suggestions := none }])

/-- Frequency section of `evaluateConfidence`. -/
def frequencyFieldCheck (f : Option FieldValueConfidence) :
    List String × List ClarificationQuestion :=
  match f with
  | some fv =>
    if shouldRequestClarification "frequency" fv.confidence (some fv.value) then
      (["frequency"],
       [{ field := "frequency"
          question :=
            if fv.value.data.isEmpty then
              "How often should this medication be taken? (e.g., Once daily, Twice daily, 1-0-1)"
            else s!"The frequency appears to be \"{fv.value}\". Is this correct?"
          detected_value := some fv.value
          confidence := fv.confidence
          suggestions :=
            if fv.value.data.isEmpty then
              some ["Once daily", "Twice daily", "Three times daily"]
            else some [fv.value, "Once daily", "Twice daily", "Three times daily"] }])
    else ([], [])
  | none =>
    (["frequency"],
     [{ field := "frequency"
        question := "How often should this medication be taken?"
        detected_value := none
        confidence := 0
        suggestions := some ["Once daily", "Twice daily", "Three times daily", "As needed"] }])

/-- Duration section of `evaluateConfidence` (no "missing" branch: the
duration is only checked when present). -/
def durationFieldCheck (f : Option FieldValueConfidence) :
    List String × List ClarificationQuestion :=
  match f with
  | some fv =>
    if shouldRequestClarification "duration" fv.confidence (some fv.value) then
      (["duration"],
       [{ field := "duration"
          question :=
            if fv.value.data.isEmpty then
              "How long should this medication be taken? (e.g., 7 days, 2 weeks)"
            else s!"The duration appears to be \"{fv.value}\". Is this correct?"
          detected_value := some fv.value
          confidence := fv.confidence
          suggestions :=
            if fv.value.data.isEmpty then some ["7 days", "14 days", "30 days", "As directed"]
            else some [fv.value, "7 days", "14 days", "30 days"] }])
    else ([], [])
  | none => ([], [])

/-- The field-level portion of `evaluateConfidence`, in source order. -/
def fieldLevelChecks (ef : ExtractedFields) :
    List String × List ClarificationQuestion :=
  let dn := drugNameFieldCheck ef.drug_name
  let st := strengthFieldCheck ef.strength
  let fr := frequencyFieldCheck ef.frequency
  let du := durationFieldCheck ef.duration
  (dn.1 ++ st.1 ++ fr.1 ++ du.1, dn.2 ++ st.2 ++ fr.2 ++ du.2)

/-- `evaluateConfidence` of `lib/ocr/confidence-gate.ts`. -/
def evaluateConfidence (ocrResult : OCRResult)
    (extractedFields : Option ExtractedFields := none) : ConfidenceGateResult :=
  let overallConfidence := ocrResult.confidence
  if overallConfidence < CONFIDENCE_THRESHOLDS.ocr_minimum then
    { passed := false
      overall_confidence := overallConfidence
      needs_confirmation := true
      clarification_questions :=
        [{ field := "image_quality"
           question := "The image quality is too low for accurate text extraction. Please upload a clearer image."
           detected_value := none
           confidence := overallConfidence
           suggestions := none }]
      low_confidence_fields := ["image_quality"]
      warnings := ["Image quality below minimum threshold"] }
  else
    let warnings :=
      if overallConfidence < CONFIDENCE_THRESHOLDS.ocr_warning then
        [s!"OCR confidence is {jsToFixed1 (overallConfidence * 100)}%. Please review the extracted information carefully."]
      else []
    let checks :=
      match extractedFields with
      | some ef => fieldLevelChecks ef
      | none => ([], [])
    { passed := decide (CONFIDENCE_THRESHOLDS.ocr_minimum ≤ overallConfidence)
      overall_confidence := overallConfidence
      needs_confirmation := !checks.2.isEmpty
      clarification_questions := checks.2
      low_confidence_fields := checks.1
      warnings := warnings }

/-! ## Interaction checker (`lib/interactions/interaction-checker.ts`)

The source reads the static table `contraindications.drug_interactions`
from `data/contraindications.json`; the table is passed explicitly here
(the spec's design note models the static tables as configuration passed
into every pure component). -/

/-- One `{drug, interactions[], warning}` entry of
`contraindications.drug_interactions`. -/
structure DrugInteractionEntry where
  drug : String
  interactions : List String
  warning : String
deriving DecidableEq, Repr

/-- Modelled from the spec: `data/contraindications.json` is not under
`src/`; the spec records Aspirin and Warfarin as an interacting pair in
the drug-interaction table, so the modelled table holds that entry. -/
def aspirinEntry : DrugInteractionEntry where
  drug := "Aspirin"
  interactions := ["Warfarin"]
  warning := "Increased risk of bleeding when taken together."

/-- Modelled from the spec: the `drug_interactions` table of
`data/contraindications.json` (not under `src/`), containing the
spec-documented Aspirin–Warfarin interacting pair. -/
def contraindicationsDrugInteractions : List DrugInteractionEntry :=
  [aspirinEntry]

/-- The fixed recommendation text of `findInteraction`. -/
def CONSULT_RECOMMENDATION : String :=
  "Please consult your doctor or pharmacist about this potential interaction."

/-- The loop body of `findInteraction`: first entry whose drug matches
`nd1` with an interaction matching `nd2` (or the reverse) wins; both
checks are `=== or includes` on lowercased strings, i.e. the table string
must contain the (already lowercased and trimmed) query. -/
def findInteractionLoop (nd1 nd2 : String) :
    List DrugInteractionEntry → Option InteractionResult
  | [] => none
  | item :: rest =>
    let itemDrug := jsLower item.drug
    let fwd :=
      if itemDrug == nd1 || jsIncludes itemDrug nd1 then
        item.interactions.find? (fun i => jsLower i == nd2 || jsIncludes (jsLower i) nd2)
      else none
    match fwd with
    | some interactsWith =>
      some { drug1 := item.drug
             drug2 := interactsWith
             severity := Severity.moderate
             description := item.warning
             recommendation := CONSULT_RECOMMENDATION
             source := "Local contraindications database" }
    | none =>
      let rev :=
        if itemDrug == nd2 || jsIncludes itemDrug nd2 then
          item.interactions.find? (fun i => jsLower i == nd1 || jsIncludes (jsLower i) nd1)
        else none
      match rev with
      | some interactsWith =>
        some { drug1 := item.drug
               drug2 := interactsWith
               severity := Severity.moderate
               description := item.warning
               recommendation := CONSULT_RECOMMENDATION
               source := "Local contraindications database" }
      | none => findInteractionLoop nd1 nd2 rest

/-- `findInteraction` of `lib/interactions/interaction-checker.ts`. -/
def findInteraction (table : List DrugInteractionEntry) (drug1 drug2 : String) :
    Option InteractionResult :=
  findInteractionLoop (jsTrim (jsLower drug1)) (jsTrim (jsLower drug2)) table

/-- The nested index loops of `checkDrugInteractions`: every pair `i < j`
in order. -/
def interactionPairsLoop (table : List DrugInteractionEntry) :
    List String → List InteractionResult
  | [] => []
  | d :: rest =>
    rest.filterMap (fun d2 => findInteraction table d d2) ++ interactionPairsLoop table rest

/-- `checkDrugInteractions` of `lib/interactions/interaction-checker.ts`. -/
def checkDrugInteractions (table : List DrugInteractionEntry)
    (medications : List MedicationItem) : List InteractionResult :=
  interactionPairsLoop table (medications.map (fun m => m.name))

/-! ## Nudge generator (`lib/nudges/nudge-generator.ts`) -/

/-- The default preferences used when none are supplied. -/
def defaultUserPreferences : UserPreferences where
  wake_time := "07:00"
  sleep_time := "22:00"
  meal_times := { breakfast := "08:00", lunch := "13:00", dinner := "19:00" }
  preferred_nudge_style := "gentle"
  timezone := "Asia/Kolkata"

/-- JS `optionalString?.includes(sub)` (falsy when the string is absent). -/
def optIncludes (v : Option String) (sub : String) : Bool :=
  match v with
  | some s => jsIncludes s sub
  | none => false

/-- `generateImplementationIntentionNudges` of
`lib/nudges/nudge-generator.ts` (the preferences parameter is accepted but
not read by the source body). -/
def generateImplementationIntentionNudges (medication : MedicationItem)
    (_prefs : UserPreferences) : List Nudge :=
  let buckets := medication.timing_buckets
  let morningNudges :=
    if buckets.morning ≠ 0 then
      let habit :=
        if optIncludes medication.food_instruction "before" then "Before breakfast"
        else if optIncludes medication.food_instruction "after" then "After breakfast"
        else "With breakfast"
      [{ id := s!"impl_intent_morning_{medication.name}"
         category := NudgeCategory.implementation_intention
         behavioral_principle := "EAST: Easy - Implementation Intention"
         message := s!"{habit}, take your {medication.name} {medication.strength}"
         evidence :=
           { medication := medication.name
             plan_field := "timing_buckets.morning"
             plan_value := PlanValue.num buckets.morning }
         timing := "before_dose"
         priority := 9 }]
    else []
  let eveningNudges :=
    if buckets.evening ≠ 0 ∨ buckets.night ≠ 0 then
      let timing := if buckets.night ≠ 0 then "bedtime" else "dinner"
      let habit :=
        if optIncludes medication.food_instruction "before" then s!"Before {timing}"
        else if optIncludes medication.food_instruction "after" then s!"After {timing}"
        else if timing = "bedtime" then "When you brush your teeth at night"
        else s!"With {timing}"
      [{ id := s!"impl_intent_evening_{medication.name}"
         category := NudgeCategory.implementation_intention
         behavioral_principle := "EAST: Easy - Implementation Intention"
         message := s!"{habit}, take your {medication.name} {medication.strength}"
         evidence :=
           { medication := medication.name
             plan_field :=
               if buckets.night ≠ 0 then "timing_buckets.night" else "timing_buckets.evening"
             plan_value :=
               PlanValue.num (if buckets.night ≠ 0 then buckets.night else buckets.evening) }
         timing := "before_dose"
         priority := 9 }]
    else []
  morningNudges ++ eveningNudges

/-- `generateFrictionReductionNudges` of `lib/nudges/nudge-generator.ts`. -/
def generateFrictionReductionNudges (medication : MedicationItem) : List Nudge :=
  [{ id := s!"friction_reduction_{medication.name}"
     category := NudgeCategory.friction_reduction
     behavioral_principle := "EAST: Easy - Reduce Friction"
     message := s!"One-tap to mark \"{medication.name}\" as taken"
     evidence :=
       { medication := medication.name
         plan_field := "name"
         plan_value := PlanValue.str medication.name }
     timing := "immediate"
     priority := 7 }]

/-- The hardcoded `whyItMattersMessages` lookup (keyed by the lowercased
drug name, falling back to the generic template). -/
def whyItMattersMessage (medication : MedicationItem) : String :=
  let dn := jsLower medication.name
  if dn = "amlodipine" then "Taking Amlodipine as prescribed helps maintain healthy blood pressure"
  else if dn = "losartan" then "Consistent Losartan helps protect your heart and kidneys"
  else if dn = "metoprolol" then "Regular Metoprolol helps keep your heart rate steady"
  else if dn = "metformin" then "Taking Metformin as prescribed helps manage blood sugar levels"
  else if dn = "glimepiride" then "Consistent Glimepiride helps control blood sugar throughout the day"
  else if dn = "atorvastatin" then "Regular Atorvastatin helps maintain healthy cholesterol levels"
  else if dn = "rosuvastatin" then "Taking Rosuvastatin as prescribed supports heart health"
  else if dn = "azithromycin" then "Completing the full course of Azithromycin ensures the infection is fully treated"
  else if dn = "amoxicillin" then "Finishing all Amoxicillin doses prevents antibiotic resistance"
  else if dn = "paracetamol" then "Taking Paracetamol as directed provides effective pain and fever relief"
  else s!"Taking {medication.name} as prescribed helps it work effectively"

/-- `generateWhyItMattersNudges` of `lib/nudges/nudge-generator.ts`. -/
def generateWhyItMattersNudges (medication : MedicationItem) : List Nudge :=
  let base :=
    [{ id := s!"why_matters_{medication.name}"
       category := NudgeCategory.why_it_matters
       behavioral_principle := "COM-B: Motivation - Reflective"
       message := whyItMattersMessage medication
       evidence :=
         { medication := medication.name
           plan_field := "name"
           plan_value := PlanValue.str medication.name }
       timing := "before_dose"
       priority := 6 }]
  let durationNudges :=
    if !medication.duration.data.isEmpty && !jsIncludes medication.duration "directed" then
      [{ id := s!"duration_reminder_{medication.name}"
         category := NudgeCategory.why_it_matters
         behavioral_principle := "COM-B: Motivation - Reflective"
         message := s!"Complete the full {medication.duration} course for best results"
         evidence :=
           { medication := medication.name
             plan_field := "duration"
             plan_value := PlanValue.str medication.duration }
         timing := "daily_summary"
         priority := 7 }]
    else []
  base ++ durationNudges

/-- `generatePositiveReinforcementNudges` of
`lib/nudges/nudge-generator.ts` (the patterns are accepted but the single
generic nudge does not depend on them). -/
def generatePositiveReinforcementNudges (_patterns : List AdherencePattern) : List Nudge :=
  [{ id := "positive_reinforcement_streak"
     category := NudgeCategory.positive_reinforcement
     behavioral_principle := "EAST: Attractive - Positive Reinforcement"
     message := "You're building a great medication routine! Keep it up 💪"
     evidence :=
       { medication := "all"
         plan_field := "adherence"
         plan_value := PlanValue.str "streak" }
     timing := "daily_summary"
     priority := 8 }]

/-- Stable insertion for the descending-priority sort: an element is
placed before the first strictly-lower-priority element, after any equal
ones that were already in place. -/
def insertByPriority (x : Nudge) : List Nudge → List Nudge
  | [] => [x]
  | y :: ys => if y.priority > x.priority then y :: insertByPriority x ys else x :: y :: ys

/-- `nudges.sort((a, b) => b.priority - a.priority)`: a stable sort by
descending priority (JS `Array.prototype.sort` is stable, the spec's
documented tie-break). -/
def sortByPriorityDesc : List Nudge → List Nudge
  | [] => []
  | x :: xs => insertByPriority x (sortByPriorityDesc xs)

/-- `generateNudges` of `lib/nudges/nudge-generator.ts`: per-medication
nudges in source order, the optional reinforcement nudge, then sort by
priority descending and keep the top 5.  (In the source `if
(adherencePatterns)` is true for any supplied array, even an empty one.) -/
def generateNudges (medications : List MedicationItem)
    (userPreferences : Option UserPreferences := none)
    (adherencePatterns : Option (List AdherencePattern) := none) : List Nudge :=
  let prefs := userPreferences.getD defaultUserPreferences
  let perMedication := medications.flatMap (fun m =>
    generateImplementationIntentionNudges m prefs ++
    generateFrictionReductionNudges m ++
    generateWhyItMattersNudges m)
  let nudges := perMedication ++
    (match adherencePatterns with
     | some ps => generatePositiveReinforcementNudges ps
     | none => [])
  (sortByPriorityDesc nudges).take 5

/-! ## Explainability composer (`lib/explainability/explainability-generator.ts`) -/

/-- A detected field of the card's "what was detected" section. -/
structure DetectedFieldInfo where
  value : String
  confidence : ℚ
deriving DecidableEq, Repr

/-- The detected food-instruction field (`value: string | null`). -/
structure DetectedFoodInfo where
  value : Option String
  confidence : ℚ
deriving DecidableEq, Repr

/-- Section 1 of `ExplainabilityCard`. -/
structure WhatWasDetected where
  name : DetectedFieldInfo
  strength : DetectedFieldInfo
  frequency : DetectedFieldInfo
  duration : DetectedFieldInfo
  food_instruction : DetectedFoodInfo
deriving DecidableEq, Repr

/-- One evidence token of section 2. -/
structure EvidenceToken where
  field : String
  text : String
  bbox : BBox
  confidence : ℚ
deriving DecidableEq, Repr

/-- Section 2 of `ExplainabilityCard`. -/
structure PrescriptionEvidence where
  ocr_tokens : List EvidenceToken
  matched_rules : List String
  original_text_snippet : String
deriving DecidableEq, Repr

/-- Section 3 of `ExplainabilityCard`. -/
structure WhyThisPlan where
  schedule_explanation : String
  timing_rationale : String
  duration_reasoning : String
  food_instruction_reasoning : Option String := none
deriving DecidableEq, Repr

/-- Section 4 of `ExplainabilityCard`. -/
structure DrugDetails where
  what_it_treats : String
  how_it_works : Option String := none
  common_side_effects : List String
  precautions : List String
  source : String
  source_url : Option String := none
deriving DecidableEq, Repr

/-- Section 5 of `ExplainabilityCard`. -/
structure UncertaintyBlock where
  has_uncertainty : Bool
  unclear_fields : List String
  confirmation_questions : List ClarificationQuestion
deriving DecidableEq, Repr

/-- `ExplainabilityCard` of `lib/types/schemas.ts`. -/
structure ExplainabilityCard where
  medication_name : String
  what_was_detected : WhatWasDetected
  prescription_evidence : PrescriptionEvidence
  why_this_plan : WhyThisPlan
  drug_details : DrugDetails
  uncertainty : UncertaintyBlock
deriving DecidableEq, Repr

/-- `generateScheduleExplanation` of the explainability generator. -/
def generateScheduleExplanation (medication : MedicationItem) : String :=
  let buckets := medication.timing_buckets
  let parts :=
    (if buckets.morning ≠ 0 then [s!"{buckets.morning} in the morning"] else []) ++
    (if buckets.afternoon ≠ 0 then [s!"{buckets.afternoon} in the afternoon"] else []) ++
    (if buckets.evening ≠ 0 then [s!"{buckets.evening} in the evening"] else []) ++
    (if buckets.night ≠ 0 then [s!"{buckets.night} at night"] else [])
  if parts.isEmpty then "Take as directed by your doctor."
  else
    let schedule := String.intercalate ", " parts
    s!"Based on \"{medication.frequency}\" in the prescription, take {schedule}. " ++
      s!"This means {jsLower medication.frequency_normalized}."

/-- `generateTimingRationale` of the explainability generator. -/
def generateTimingRationale (medication : MedicationItem) : String :=
  let fromFood :=
    match medication.food_instruction with
    | some f =>
      let instruction := jsLower f
      if jsIncludes instruction "before" || jsIncludes instruction "ac" then
        some ("The prescription indicates to take this medication before meals. " ++
          "This helps with better absorption or reduces stomach upset.")
      else if jsIncludes instruction "after" || jsIncludes instruction "pc" then
        some ("The prescription indicates to take this medication after meals. " ++
          "This helps reduce stomach irritation.")
      else if jsIncludes instruction "with" then
        some ("The prescription indicates to take this medication with food. " ++
          "This helps with absorption and reduces stomach upset.")
      else none
    | none => none
  match fromFood with
  | some r => r
  | none =>
    if medication.timing_buckets.morning ≠ 0 ∧ medication.timing_buckets.evening = 0 then
      "Taking this medication in the morning helps maintain consistent levels throughout the day."
    else if medication.timing_buckets.night ≠ 0 ∧ medication.timing_buckets.morning = 0 then
      "Taking this medication at night may help with better absorption or reduce daytime side effects."
    else
      "The timing is based on the prescription instructions to maintain consistent medication levels."

/-- `generateDurationReasoning` of the explainability generator. -/
def generateDurationReasoning (medication : MedicationItem) : String :=
  if medication.duration = "As directed" then
    "The prescription does not specify a duration. Continue taking as directed by your doctor."
  else
    match medication.duration_evidence with
    | some ev =>
      s!"The prescription specifies \"{ev.value}\" as the duration. " ++
        "Complete the full course even if you feel better."
    | none =>
      s!"Take for {medication.duration}. Complete the full course as prescribed."

/-- `generateFoodInstructionReasoning` of the explainability generator. -/
def generateFoodInstructionReasoning (instruction : String) : String :=
  let lower := jsLower instruction
  if jsIncludes lower "before" || jsIncludes lower "ac" then
    "Taking before meals (usually 30-60 minutes) helps with absorption or prevents stomach upset."
  else if jsIncludes lower "after" || jsIncludes lower "pc" then
    "Taking after meals helps reduce stomach irritation from the medication."
  else if jsIncludes lower "with" then
    "Taking with food helps with absorption and reduces the chance of stomach upset."
  else if jsIncludes lower "empty" then
    "Taking on an empty stomach (1 hour before or 2 hours after food) ensures proper absorption."
  else s!"Follow the instruction: {instruction}"

/-- One evidence token of section 2: the evidence value with the first OCR
token's bbox (`ocr_tokens[0]?.bbox || zero`). -/
def evidenceToken (field : String) (ev : FieldEvidence) : EvidenceToken where
  field := field
  text := ev.value
  bbox := ((ev.ocr_tokens.head?.map (fun t => t.bbox)).getD zeroBBox)
  confidence := ev.confidence

/-- `generateExplainabilityCard` of
`lib/explainability/explainability-generator.ts`: a total function — every
medication and drug-info (present or absent) yields a card. -/
def generateExplainabilityCard (medication : MedicationItem)
    (drugInfo : Option DrugInfo) : ExplainabilityCard where
  medication_name := medication.name
  what_was_detected :=
    { name := { value := medication.name, confidence := medication.name_confidence }
      strength := { value := medication.strength, confidence := medication.strength_confidence }
      frequency :=
        { value := medication.frequency_normalized
          confidence := medication.frequency_confidence }
      duration := { value := medication.duration, confidence := medication.duration_confidence }
      food_instruction :=
        { value := medication.food_instruction
          confidence := medication.food_instruction_confidence.getD 0 } }
  prescription_evidence :=
    { ocr_tokens :=
        [evidenceToken "name" medication.name_evidence,
         evidenceToken "strength" medication.strength_evidence,
         evidenceToken "frequency" medication.frequency_evidence]
      matched_rules :=
        [medication.name_evidence.matched_rule.getD "drug_name_extraction",
         medication.strength_evidence.matched_rule.getD "strength_extraction",
         medication.frequency_evidence.matched_rule.getD "frequency_extraction"]
      original_text_snippet :=
        s!"{medication.name} {medication.strength} {medication.frequency}" }
  why_this_plan :=
    { schedule_explanation := generateScheduleExplanation medication
      timing_rationale := generateTimingRationale medication
      duration_reasoning := generateDurationReasoning medication
      food_instruction_reasoning :=
        match medication.food_instruction with
        | some f => some (generateFoodInstructionReasoning f)
        | none => none }
  drug_details :=
    match drugInfo with
    | some di =>
      { what_it_treats := String.intercalate ", " di.indications
        how_it_works := di.mechanism_of_action
        common_side_effects := di.common_side_effects
        precautions := di.precautions
        source := if di.source = "local" then "Local Knowledge Base" else "OpenFDA"
        source_url := di.source_url }
    | none =>
      { what_it_treats := "Information not available"
        how_it_works := none
        common_side_effects := []
        precautions := []
        source := "Not found"
        source_url := none }
  uncertainty :=
    { has_uncertainty := medication.needs_confirmation
      unclear_fields := medication.uncertain_fields
      confirmation_questions := [] }

/-- `generateExplainabilityCards`: one card per medication, pairing each
with its drug-info lookup result (`drugInfoList[index] || null`). -/
def generateExplainabilityCards (medications : List MedicationItem)
    (drugInfoList : List (Option DrugInfo)) : List ExplainabilityCard :=
  medications.enum.map (fun p =>
    generateExplainabilityCard p.2 (drugInfoList.getD p.1 none))

/-! ## Concrete test fixtures used by witnesses and counterexamples -/

/-- An empty field evidence. -/
def emptyEvidence : FieldEvidence where
  value := ""
  confidence := 0
  ocr_tokens := []

/-- A `MedicationItem` carrying only a name (the interaction checker reads
nothing else). -/
def mkMedNamed (n : String) : MedicationItem where
  name := n
  name_confidence := 0
  name_evidence := emptyEvidence
  strength := ""
  strength_confidence := 0
  strength_evidence := emptyEvidence
  form := ""
  form_confidence := 0
  frequency := ""
  frequency_normalized := ""
  frequency_confidence := 0
  frequency_evidence := emptyEvidence
  timing_buckets := {}
  duration := ""
  duration_confidence := 0
  needs_confirmation := false
  uncertain_fields := []

/-- A medication with both a morning and a night dose. -/
def sampleMorningNightMed : MedicationItem :=
  { mkMedNamed "Amlodipine" with
      strength := "5mg"
      timing_buckets := { morning := 1, night := 1 } }

/-- An OCR result whose overall confidence 0.40 is below the 0.50 gate. -/
def lowConfidenceOCR : OCRResult where
  text := "Tab Amlodipine 5mg"
  confidence := 2/5
  tokens := []
  lines := []

/-- Well-detected extracted fields (used to show the global gate ignores
them). -/
def sampleExtractedFields : ExtractedFields where
  drug_name := some { value := "Amlodipine", confidence := 9/10 }
  strength := some { value := "5mg", confidence := 9/10 }
  frequency := some { value := "1-0-0", confidence := 9/10 }
  duration := some { value := "30 days", confidence := 9/10 }

/-- Recognising an implementation-intention nudge. -/
def isImplementationIntention (n : Nudge) : Bool :=
  match n.category with
  | NudgeCategory.implementation_intention => true
  | _ => false

/-! # Helper lemmas -/

theorem strData_isEmpty_iff (s : String) : s.data.isEmpty = true ↔ s = "" := by
  cases s with
  | mk d => simp [List.isEmpty_iff, String.ext_iff]

theorem strData_eq_nil_iff (s : String) : s.data = [] ↔ s = "" := by
  cases s with
  | mk d => simp [String.ext_iff]

theorem strengthResult_delta_nonneg (cs : List Char) : 0 ≤ (strengthResult cs).2.1 := by
  unfold strengthResult
  rcases strengthMatch cs with _ | ⟨whole, num, u⟩ <;> dsimp only <;> norm_num

theorem doseResult_delta_nonneg (cs : List Char) : 0 ≤ (doseResult cs).2.2.1 := by
  unfold doseResult
  rcases dosePatternMatch cs with _ | ⟨w, a, b, c⟩
  · rcases freqMatch cs with _ | kw
    · rcases timesMatch cs with _ | n
      · dsimp only; norm_num
      · dsimp only; split_ifs <;> norm_num
    · rcases habb : abbreviationsFrequency (jsUpper kw) with _ | full <;>
        simp [habb] <;> norm_num
  · dsimp only; norm_num

theorem durationResult_delta_nonneg (cs : List Char) : 0 ≤ (durationResult cs).2.1 := by
  unfold durationResult
  rcases durationMatch1 cs with _ | ⟨w, num, u⟩
  · rcases durationMatch2 cs with _ | ⟨num, u⟩ <;> dsimp only <;> norm_num
  · dsimp only; norm_num

theorem foodResult_delta_nonneg (cs : List Char) : 0 ≤ (foodResult cs).2.1 := by
  unfold foodResult
  rcases foodMatch cs with _ | f <;> dsimp only <;> norm_num

/-- The medication record produced by `finishExtraction`, spelled out. -/
theorem finishExtraction_medication (cs : List Char) (dn f : String) (d : ℚ)
    (ex : List ExtractionExplanation) :
    (finishExtraction cs dn f d ex).1 =
      some
        { drug_name := dn
          strength := (strengthResult cs).1
          form := (abbreviationsForm f).getD f
          dose_pattern := (doseResult cs).1
          timing_buckets := (timingResult cs (doseResult cs).2.1).1
          duration := (durationResult cs).1
          food_instruction := (foodResult cs).1
          notes := notesResult cs
          confidence := clampConfidence (3/10 + d + (strengthResult cs).2.1 +
            (doseResult cs).2.2.1 + (durationResult cs).2.1 + (foodResult cs).2.1) } := rfl

/-- Every record the extractor produces has its confidence clamped into
`[0.3, 1]`, and — since the drug-name pattern that fired always contributed
at least `0.2` — strictly above the `0.3` base. -/
theorem extract_confidence_bounds (line : String) (m : Medication)
    (hm : (extractMedicationFromLine line).1 = some m) :
    3/10 < m.confidence ∧ m.confidence ≤ 1 := by
  have key : ∀ (dn f : String) (d : ℚ) (ex : List ExtractionExplanation),
      2/10 ≤ d → (finishExtraction line.data dn f d ex).1 = some m →
      3/10 < m.confidence ∧ m.confidence ≤ 1 := by
    intro dn f d ex hd hfin
    rw [finishExtraction_medication] at hfin
    have hrec := Option.some.inj hfin
    subst hrec
    have h1 := strengthResult_delta_nonneg line.data
    have h2 := doseResult_delta_nonneg line.data
    have h3 := durationResult_delta_nonneg line.data
    have h4 := foodResult_delta_nonneg line.data
    constructor
    · show (3:ℚ)/10 < clampConfidence _
      unfold clampConfidence
      rw [lt_min_iff]
      refine ⟨lt_of_lt_of_le ?_ (le_max_left _ _), by norm_num⟩
      linarith
    · exact min_le_right _ _
  unfold extractMedicationFromLine at hm
  rcases hfd : formDrugMatch line.data with _ | ⟨whole, f0, dn0⟩
  · rw [hfd] at hm
    rcases hft : fallbackDrugToken line with _ | w
    · rw [hft] at hm
      simp at hm
    · rw [hft] at hm
      exact key w "Tablet" (2/10) _ (by norm_num) hm
  · rw [hfd] at hm
    exact key dn0 f0 (3/10) _ (by norm_num) hm

/-! # Claim theorems -/

/-- Claim C9: for every medication, `generateExplainabilityCard` with a
null drug-info argument is defined (the embedding is a total function, the
source has no throwing path) and its `drug_details` section is exactly the
fixed "Information not available" placeholder with empty side-effect and
precaution lists — no fabricated clinical content. -/
theorem C9_placeholder_drug_details (med : MedicationItem) :
    (generateExplainabilityCard med none).drug_details =
      { what_it_treats := "Information not available"
        how_it_works := none
        common_side_effects := []
        precautions := []
        source := "Not found"
        source_url := none } := rfl

/-- Claim C5: `shouldRequestClarification` asks about the frequency field
exactly when the field is missing (confidence below the 0.30
missing-field threshold, or no value, or an empty value) — in particular
not merely because the confidence is below the 0.65 frequency threshold —
and it never asks about the duration field. -/
theorem C5_frequency_duration_clarification :
    (∀ (confidence : ℚ) (value : Option String),
      shouldRequestClarification "frequency" confidence value = true ↔
        (confidence < 30/100 ∨ value = none ∨ value = some "")) ∧
    (∀ (confidence : ℚ) (value : Option String),
      shouldRequestClarification "duration" confidence value = false) := by
  constructor
  · intro c v
    simp only [shouldRequestClarification, CLARIFICATION_RULES, CONFIDENCE_THRESHOLDS]
    rcases v with _ | s <;>
      simp [strFalsy, strData_isEmpty_iff, strData_eq_nil_iff]
  · intro c v
    simp [shouldRequestClarification, CLARIFICATION_RULES]

/-- Claim C4: whenever the overall OCR confidence is below the 0.50
minimum, `evaluateConfidence` short-circuits: it fails the gate with
exactly the single image-quality clarification question, and the
extracted-field argument is never consulted (the result is the same
whatever fields are supplied). -/
theorem C4_global_gate_short_circuit (ocr : OCRResult) (ef : Option ExtractedFields)
    (h : ocr.confidence < 50/100) :
    evaluateConfidence ocr ef =
      { passed := false
        overall_confidence := ocr.confidence
        needs_confirmation := true
        clarification_questions :=
          [{ field := "image_quality"
             question := "The image quality is too low for accurate text extraction. Please upload a clearer image."
             detected_value := none
             confidence := ocr.confidence
             suggestions := none }]
        low_confidence_fields := ["image_quality"]
        warnings := ["Image quality below minimum threshold"] } := by
  unfold evaluateConfidence
  rw [if_pos (show ocr.confidence < CONFIDENCE_THRESHOLDS.ocr_minimum from h)]

theorem lowConfidenceOCR_below_minimum : lowConfidenceOCR.confidence < 50/100 := by
  norm_num [lowConfidenceOCR]

/-- Witness for C4 at overall confidence 0.40 with fully-detected fields. -/
theorem C4_witness :
    evaluateConfidence lowConfidenceOCR (some sampleExtractedFields) =
      { passed := false
        overall_confidence := 2/5
        needs_confirmation := true
        clarification_questions :=
          [{ field := "image_quality"
             question := "The image quality is too low for accurate text extraction. Please upload a clearer image."
             detected_value := none
             confidence := 2/5
             suggestions := none }]
        low_confidence_fields := ["image_quality"]
        warnings := ["Image quality below minimum threshold"] } :=
  C4_global_gate_short_circuit lowConfidenceOCR (some sampleExtractedFields)
    lowConfidenceOCR_below_minimum

/-- Claim C7: every medication record returned by `extractMedications` has
a confidence in the closed interval `[0, 1]` (for any input text). -/
theorem C7_confidence_in_unit_interval (text : String) :
    ((extractMedications text).medications.all
      (fun m => decide ((0:ℚ) ≤ m.confidence) && decide (m.confidence ≤ 1))) = true := by
  rw [List.all_eq_true]
  intro m hm
  simp only [extractMedications] at hm
  rw [List.mem_filterMap] at hm
  obtain ⟨l, _, hl⟩ := hm
  by_cases ha : acceptsLine l
  · rw [if_pos ha] at hl
    have h := extract_confidence_bounds l m hl
    simp only [Bool.and_eq_true, decide_eq_true_eq]
    exact ⟨by linarith [h.1], h.2⟩
  · rw [if_neg ha] at hl
    simp at hl

/-- Claim C10: on an accepted line with no numeric dose pattern, no
frequency abbreviation, no "N times daily" phrase and no bare timing word,
the extracted record silently carries the defaults `dose_pattern = "OD"`
and `timing_buckets = { morning: 1 }` instead of reporting the frequency
as unknown. -/
theorem C10_default_frequency (line : String) (m : Medication)
    (hscreen : isNonMedicationLine line = false)
    (hind : hasMedicationIndicators line = true)
    (hdp : dosePatternMatch line.data = none)
    (hfr : freqMatch line.data = none)
    (hts : timesMatch line.data = none)
    (hti : timingMatch line.data = none)
    (hm : (extractMedicationFromLine line).1 = some m) :
    m.dose_pattern = "OD" ∧ m.timing_buckets = ⟨1, 0, 0, 0⟩ := by
  have hd : doseResult line.data = ("OD", ⟨1, 0, 0, 0⟩, 0, []) := by
    unfold doseResult
    rw [hdp, hfr, hts]
  have ht : timingResult line.data (⟨1, 0, 0, 0⟩ : TimingBuckets) = (⟨1, 0, 0, 0⟩, []) := by
    unfold timingResult
    rw [hti]
  have key : ∀ (dn f : String) (d : ℚ) (ex : List ExtractionExplanation),
      (finishExtraction line.data dn f d ex).1 = some m →
      m.dose_pattern = "OD" ∧ m.timing_buckets = ⟨1, 0, 0, 0⟩ := by
    intro dn f d ex hfin
    rw [finishExtraction_medication, hd] at hfin
    simp only at hfin
    rw [ht] at hfin
    have hrec := Option.some.inj hfin
    subst hrec
    exact ⟨rfl, rfl⟩
  unfold extractMedicationFromLine at hm
  rcases hfd : formDrugMatch line.data with _ | ⟨whole, f0, dn0⟩
  · rw [hfd] at hm
    rcases hft : fallbackDrugToken line with _ | w
    · rw [hft] at hm
      simp at hm
    · rw [hft] at hm
      exact key w "Tablet" (2/10) _ hm
  · rw [hfd] at hm
    exact key dn0 f0 (3/10) _ hm

/-- Witness for C10 on the accepted line `"Tab Paracetamol 500mg"` — it
carries a strength and a form but no frequency information whatsoever, and
the produced record defaults to OD / morning. -/
theorem C10_witness :
    ((extractMedicationFromLine "Tab Paracetamol 500mg").1.map
      (fun m => (m.dose_pattern, m.timing_buckets))) =
      some ("OD", (⟨1, 0, 0, 0⟩ : TimingBuckets)) := by
  cases hfd : (extractMedicationFromLine "Tab Paracetamol 500mg").1 with
  | none => exact absurd hfd (by decide)
  | some m =>
    have h := C10_default_frequency "Tab Paracetamol 500mg" m (by decide) (by decide)
      (by decide) (by decide) (by decide) (by decide) hfd
    simp [h.1, h.2]

/-- Claim C1, counterexample: on the line
`"Tab Amlodipine 5mg 1-0-0 x 30 days Before breakfast"` the single
extracted record has `food_instruction` absent — not a value matching
"before" as the claim asserts.  (The food-instruction pattern only knows
`ac|pc|with meals|empty stomach|before meals|after meals|with food`, and
"Before breakfast" matches none of them.) -/
theorem C1_counterexample :
    (extractMedications "Tab Amlodipine 5mg 1-0-0 x 30 days Before breakfast").medications.map
        (fun m => m.food_instruction) = [none] ∧
    foodMatch "Tab Amlodipine 5mg 1-0-0 x 30 days Before breakfast".data = none := by
  exact ⟨by decide, by decide⟩

/-- Claim C1 as amended: on the line
`"Tab Amlodipine 5mg 1-0-0 x 30 days Before breakfast"`,
`extractMedications` yields exactly one record with drug_name
"Amlodipine", strength "5mg", dose_pattern "1-0-0", timing buckets
`{morning: 1}`, duration "30 days", **no** food instruction, and a
confidence strictly greater than the 0.3 base value. -/
theorem C1_amended :
    ((extractMedications "Tab Amlodipine 5mg 1-0-0 x 30 days Before breakfast").medications.map
      (fun m => (m.drug_name, m.strength, m.dose_pattern, m.timing_buckets,
                 m.duration, m.food_instruction)) =
      [("Amlodipine", "5mg", "1-0-0", (⟨1, 0, 0, 0⟩ : TimingBuckets), "30 days", none)]) ∧
    ((extractMedications "Tab Amlodipine 5mg 1-0-0 x 30 days Before breakfast").medications.all
      (fun m => decide ((3:ℚ)/10 < m.confidence)) = true) := by
  constructor
  · rfl
  · rw [List.all_eq_true]
    intro m hm
    simp only [extractMedications] at hm
    rw [List.mem_filterMap] at hm
    obtain ⟨l, _, hl⟩ := hm
    by_cases ha : acceptsLine l
    · rw [if_pos ha] at hl
      simp only [decide_eq_true_eq]
      exact (extract_confidence_bounds l m hl).1
    · rw [if_neg ha] at hl
      simp at hl

/-- Claim C6, counterexample: on the accepted line `"500mg paracetamol"`
the form+drug pattern fails and the fallback picks `"500mg"` — the first
token of length ≥ 3 that is not purely numeric — even though it is not
alphabetic; the first *alphabetic* token, `"paracetamol"`, is not chosen. -/
theorem C6_counterexample :
    (extractMedications "500mg paracetamol").medications.map (fun m => m.drug_name) =
        ["500mg"] ∧
    ("500mg".data.all Char.isAlpha) = false ∧
    formDrugMatch "500mg paracetamol".data = none := by
  exact ⟨by decide, by decide, by decide⟩

/-- Claim C6 as amended: on an accepted line where the
form-keyword-plus-word pattern fails, the extracted drug name is the first
whitespace-delimited token of length at least 3 that is **not purely
numeric** (rather than "alphabetic") and whose lowercasing is not in the
denylist (`fallbackDrugToken`); if no such token exists, no record is
produced. -/
theorem C6_amended (line : String)
    (hscreen : isNonMedicationLine line = false)
    (hind : hasMedicationIndicators line = true)
    (hfd : formDrugMatch line.data = none) :
    (∀ w, fallbackDrugToken line = some w →
      ∃ m, (extractMedicationFromLine line).1 = some m ∧ m.drug_name = w) ∧
    (fallbackDrugToken line = none → (extractMedicationFromLine line).1 = none) := by
  constructor
  · intro w hw
    unfold extractMedicationFromLine
    rw [hfd, hw]
    exact ⟨_, finishExtraction_medication _ _ _ _ _, rfl⟩
  · intro hw
    unfold extractMedicationFromLine
    rw [hfd, hw]

/-- Witness for C6 on the accepted line `"500mg paracetamol"`: the fallback
token is `"500mg"` and the produced record carries it as the drug name. -/
theorem C6_witness :
    ((extractMedicationFromLine "500mg paracetamol").1.map (fun m => m.drug_name)) =
      some "500mg" := by
  obtain ⟨m, hm, hdn⟩ :=
    (C6_amended "500mg paracetamol" (by decide) (by decide) (by decide)).1
      "500mg" (by decide)
  rw [hm]
  simp [hdn]

/-- Every result `findInteraction`'s loop ever returns carries the fixed
moderate severity and the generic consult-your-doctor recommendation. -/
theorem findInteractionLoop_moderate (nd1 nd2 : String)
    (table : List DrugInteractionEntry) (r : InteractionResult)
    (h : findInteractionLoop nd1 nd2 table = some r) :
    r.severity = Severity.moderate ∧ r.recommendation = CONSULT_RECOMMENDATION := by
  induction table with
  | nil => simp [findInteractionLoop] at h
  | cons item rest ih =>
    simp only [findInteractionLoop] at h
    split at h
    · have := Option.some.inj h
      subst this
      exact ⟨rfl, rfl⟩
    · split at h
      · have := Option.some.inj h
        subst this
        exact ⟨rfl, rfl⟩
      · exact ih h

/-- Severity/recommendation invariant lifted to the pairwise loop. -/
theorem interactionPairsLoop_moderate (table : List DrugInteractionEntry)
    (names : List String) (r : InteractionResult)
    (h : r ∈ interactionPairsLoop table names) :
    r.severity = Severity.moderate ∧ r.recommendation = CONSULT_RECOMMENDATION := by
  induction names with
  | nil => simp [interactionPairsLoop] at h
  | cons d rest ih =>
    simp only [interactionPairsLoop] at h
    rw [List.mem_append] at h
    rcases h with h | h
    · rw [List.mem_filterMap] at h
      obtain ⟨d2, _, hf⟩ := h
      exact findInteractionLoop_moderate _ _ _ r hf
    · exact ih h

/-- Claim C2, counterexample: a plan that contains the names "Aspirin" and
"Warfarin" — here with "Aspirin" twice — makes `checkDrugInteractions`
return **two** `InteractionResult`s for that pair, not exactly one: the
pairwise loop reports the pair once per occurrence pair. -/
theorem C2_counterexample :
    (checkDrugInteractions contraindicationsDrugInteractions
        [mkMedNamed "Aspirin", mkMedNamed "Aspirin", mkMedNamed "Warfarin"]).map
      (fun r => (r.drug1, r.drug2, r.severity)) =
      [("Aspirin", "Warfarin", Severity.moderate),
       ("Aspirin", "Warfarin", Severity.moderate)] := by
  decide

/-- Claim C2 as amended: for a plan holding exactly one medication named
"Aspirin" and exactly one named "Warfarin" (in either order),
`checkDrugInteractions` over the modelled contraindication table returns
exactly one `InteractionResult`; and every `InteractionResult` the checker
ever produces (any table, any plan) has severity `moderate` and the fixed
consult-your-doctor recommendation. -/
theorem C2_amended :
    (∀ (m1 m2 : MedicationItem), m1.name = "Aspirin" → m2.name = "Warfarin" →
      (checkDrugInteractions contraindicationsDrugInteractions [m1, m2]).length = 1 ∧
      (checkDrugInteractions contraindicationsDrugInteractions [m2, m1]).length = 1) ∧
    (∀ (table : List DrugInteractionEntry) (meds : List MedicationItem)
        (r : InteractionResult), r ∈ checkDrugInteractions table meds →
      r.severity = Severity.moderate ∧ r.recommendation = CONSULT_RECOMMENDATION) := by
  constructor
  · intro m1 m2 h1 h2
    constructor
    · show (interactionPairsLoop contraindicationsDrugInteractions
        ([m1, m2].map (fun m => m.name))).length = 1
      simp only [List.map_cons, List.map_nil, h1, h2]
      decide
    · show (interactionPairsLoop contraindicationsDrugInteractions
        ([m2, m1].map (fun m => m.name))).length = 1
      simp only [List.map_cons, List.map_nil, h1, h2]
      decide
  · intro table meds r h
    exact interactionPairsLoop_moderate table _ r h

/-- Witness for C2: the two-medication Aspirin/Warfarin plan, in both
orders, and the moderate-severity invariant on its actual output. -/
theorem C2_witness :
    ((checkDrugInteractions contraindicationsDrugInteractions
        [mkMedNamed "Aspirin", mkMedNamed "Warfarin"]).length = 1 ∧
     (checkDrugInteractions contraindicationsDrugInteractions
        [mkMedNamed "Warfarin", mkMedNamed "Aspirin"]).length = 1) ∧
    ((checkDrugInteractions contraindicationsDrugInteractions
        [mkMedNamed "Aspirin", mkMedNamed "Warfarin"]).all
      (fun r => decide (r.severity = Severity.moderate) &&
        decide (r.recommendation = CONSULT_RECOMMENDATION)) = true) := by
  refine ⟨C2_amended.1 (mkMedNamed "Aspirin") (mkMedNamed "Warfarin") rfl rfl, ?_⟩
  rw [List.all_eq_true]
  intro r hr
  have h := C2_amended.2 contraindicationsDrugInteractions _ r hr
  simp [h.1, h.2]

/-- Claim C3, counterexample: the medication name "Aspirin 75" contains
the table's drug string "Aspirin" (case-insensitively), yet
`findInteraction` finds no match for it against "Warfarin" — the checker
only tests whether the **table string contains the medication name**,
never the converse, so matching is not "substring containment in both
directions" as claimed. -/
theorem C3_counterexample :
    jsIncludes (jsLower "Aspirin 75") (jsLower "Aspirin") = true ∧
    findInteraction contraindicationsDrugInteractions "Aspirin 75" "Warfarin" = none ∧
    checkDrugInteractions contraindicationsDrugInteractions
      [mkMedNamed "Aspirin 75", mkMedNamed "Warfarin"] = [] := by
  exact ⟨by decide, by decide, by decide⟩

/-- A table entry whose drug string contains the normalized first query
and one of whose interaction strings contains the normalized second query
always produces a match. -/
theorem findInteractionLoop_isSome_of_mem (nd1 nd2 : String)
    (table : List DrugInteractionEntry) (e : DrugInteractionEntry)
    (he : e ∈ table)
    (h1 : jsIncludes (jsLower e.drug) nd1 = true)
    (h2 : ∃ i ∈ e.interactions, jsIncludes (jsLower i) nd2 = true) :
    (findInteractionLoop nd1 nd2 table).isSome = true := by
  induction table with
  | nil => cases he
  | cons item rest ih =>
    rcases List.mem_cons.mp he with rfl | hmem
    · obtain ⟨i, hi, hp⟩ := h2
      have hs : (e.interactions.find?
          (fun i => jsLower i == nd2 || jsIncludes (jsLower i) nd2)).isSome = true :=
        List.find?_isSome.mpr ⟨i, hi, by rw [hp]; simp⟩
      obtain ⟨iw, hiw⟩ := Option.isSome_iff_exists.mp hs
      simp only [findInteractionLoop]
      rw [if_pos (show (jsLower e.drug == nd1 || jsIncludes (jsLower e.drug) nd1) = true by
        rw [h1]; simp)]
      rw [hiw]
      rfl
    · simp only [findInteractionLoop]
      split
      · simp
      · split
        · simp
        · exact ih hmem

/-- Claim C3 as amended: interaction-name matching is case-insensitive
substring containment in **one** direction only — a match is found
whenever the table's drug string contains the trimmed lowercased
medication name (and an interaction string likewise contains the other
name); the converse containment does not by itself produce a match (see
the counterexample). -/
theorem C3_amended (table : List DrugInteractionEntry) (e : DrugInteractionEntry)
    (drug1 drug2 : String) (he : e ∈ table)
    (h1 : jsIncludes (jsLower e.drug) (jsTrim (jsLower drug1)) = true)
    (h2 : ∃ i ∈ e.interactions, jsIncludes (jsLower i) (jsTrim (jsLower drug2)) = true) :
    (findInteraction table drug1 drug2).isSome = true := by
  unfold findInteraction
  exact findInteractionLoop_isSome_of_mem _ _ table e he h1 h2

/-- Witness for C3: fragments of both names ("Spir", "ARFA") still match
through the one-directional substring containment. -/
theorem C3_witness :
    (findInteraction contraindicationsDrugInteractions "Spir" "ARFA").isSome = true :=
  C3_amended contraindicationsDrugInteractions aspirinEntry "Spir" "ARFA"
    (by decide) (by decide) (by decide)

/-- Claim C8: the nudge list is always capped at 5; and a single
medication with both morning and night buckets populated yields at least
two implementation-intention nudges in the returned (sorted, capped)
list — the two priority-9 implementation-intention nudges always survive
the cap. -/
theorem C8_nudge_cap_and_impl (medications : List MedicationItem)
    (prefs : Option UserPreferences) (adh : Option (List AdherencePattern))
    (med : MedicationItem)
    (hm : med.timing_buckets.morning ≠ 0) (hn : med.timing_buckets.night ≠ 0) :
    (generateNudges medications prefs adh).length ≤ 5 ∧
    2 ≤ (generateNudges [med] prefs adh).countP isImplementationIntention := by
  constructor
  · show ((sortByPriorityDesc _).take 5).length ≤ 5
    exact List.length_take_le _ _
  · rcases adh with _ | ps
    all_goals
      simp only [generateNudges, generateImplementationIntentionNudges,
        generateFrictionReductionNudges, generateWhyItMattersNudges,
        generatePositiveReinforcementNudges, List.flatMap_cons, List.flatMap_nil,
        List.append_nil, Option.getD, hm, hn, ne_eq, not_false_iff, if_true, ite_true]
    all_goals simp [hm, hn]
    all_goals split_ifs
    all_goals
      simp [sortByPriorityDesc, insertByPriority, isImplementationIntention,
        List.countP_cons, List.countP_nil]

/-- Witness for C8 on a concrete morning+night medication. -/
theorem C8_witness :
    (generateNudges [sampleMorningNightMed] none none).length ≤ 5 ∧
    2 ≤ (generateNudges [sampleMorningNightMed] none none).countP
          isImplementationIntention :=
  C8_nudge_cap_and_impl [sampleMorningNightMed] none none sampleMorningNightMed
    (by decide) (by decide)

end Mediguide
